import Mathlib

/-!
Shallow embedding of the soketlabs realtime-sdk-python repository
(`src/realtime/conversation.py`, `src/realtime/event_handler.py`,
`src/realtime/client.py`) together with proofs of the specification claims.

Python dictionaries are embedded as insertion-ordered association lists over
`String` keys.  Python object aliasing (the ordered `items` list holds the very
dict objects stored in `item_lookup`) is embedded heap-style: the ordered list
stores the item ids and `item_lookup` plays the role of the heap; no processor
ever mutates an item's `id` field, so the id of a stored object is stable.
A Python method that mutates `self` and may raise becomes a function returning
the post-state together with an `Except` outcome, so that mutations performed
before an exception is raised are kept, exactly as in the source.
-/

namespace Realtime

/-! ### Ordered dictionaries as association lists -/

/-- `d.get(k)` / `d[k]` read on a Python dict. -/
def dictGet {α : Type} : List (String × α) → String → Option α
  | [], _ => none
  | p :: l, k => if p.1 = k then some p.2 else dictGet l k

/-- `k in d` on a Python dict. -/
def dictContains {α : Type} (l : List (String × α)) (k : String) : Bool :=
  (dictGet l k).isSome

/-- `d[k] = v` when `k` is already a key: replace the first binding in place. -/
def dictSetKey {α : Type} : List (String × α) → String → α → List (String × α)
  | [], _, _ => []
  | p :: l, k, v => if p.1 = k then (k, v) :: l else p :: dictSetKey l k v

/-- `d[k] = v` on a Python dict: update in place if present, else append. -/
def dictSet {α : Type} (l : List (String × α)) (k : String) (v : α) :
    List (String × α) :=
  if dictContains l k then dictSetKey l k v else l ++ [(k, v)]

/-- `del d[k]` on a Python dict (keys are unique, so filtering is removal). -/
def dictDel {α : Type} (l : List (String × α)) (k : String) : List (String × α) :=
  l.filter (fun p => p.1 ≠ k)

/-! ### Conversation data model (`conversation.py`) -/

/-- One element of an item's `content` list. -/
structure ContentPart where
  type : String
  text : String
  transcript : String
  deriving Repr, DecidableEq

/-- The `formatted.tool` record seeded for `function_call` items. -/
structure ToolCall where
  type : String
  name : String
  call_id : String
  arguments : String
  deriving Repr, DecidableEq

/-- The derived `formatted` projection of an item.  Audio is a list of decoded
16-bit samples (numpy int16 values embedded as `Int`). -/
structure Formatted where
  audio : List Int
  text : String
  transcript : String
  tool : Option ToolCall
  output : Option String
  deriving Repr, DecidableEq

/-- A conversation item (Python dict with the fields the code reads). -/
structure Item where
  id : String
  type : String
  role : String
  status : String
  content : List ContentPart
  name : String
  call_id : String
  arguments : String
  output : String
  formatted : Formatted
  deriving Repr, DecidableEq

/-- A response record: `{'id': ..., 'output': [...item ids...]}`. -/
structure ResponseObj where
  id : String
  output : List String
  deriving Repr, DecidableEq

/-- A queued speech span `{'audio_start_ms': ..., 'audio_end_ms'?, 'audio'?}`;
the optional fields are only present after `speech_stopped`. -/
structure SpeechSpan where
  audio_start_ms : Nat
  audio_end_ms : Option Nat
  audio : Option (List Int)
  deriving Repr, DecidableEq

/-- State of a `RealtimeConversation` object.  The `items` and `responses`
lists hold the ids of the aliased dict objects (see the file comment). -/
structure RealtimeConversation where
  item_lookup : List (String × Item)
  items : List String
  response_lookup : List (String × ResponseObj)
  responses : List String
  queued_speech_items : List (String × SpeechSpan)
  queued_transcript_items : List (String × String)
  queued_input_audio : Option (List Int)
  deriving Repr, DecidableEq

/-- `self.default_frequency = 24000`. -/
def default_frequency : Nat := 24000

/-- State produced by `clear()` (also the state right after `__init__`). -/
def clearedConversation : RealtimeConversation :=
  { item_lookup := []
    items := []
    response_lookup := []
    responses := []
    queued_speech_items := []
    queued_transcript_items := []
    queued_input_audio := none }

/-- The delta summary returned alongside an item by some processors. -/
inductive Delta where
  | transcript (t : String)
  | audio (samples : List Int)
  | text (t : String)
  | arguments (a : String)
  deriving Repr, DecidableEq

/-- The `(item_or_none, delta_or_none)` pair returned by every processor. -/
abbrev ProcResult := Option Item × Option Delta

/-- Outcome of running a processor: the post-state (mutations performed before
an exception are kept) plus the returned pair or the raised error. -/
abbrev ProcOutcome := RealtimeConversation × Except String ProcResult

/-! ### Event processors (`conversation.py`) -/

/-- The fresh `formatted` dict assigned by `_process_item_created`:
`{'audio': np.array([], dtype=np.int16), 'text': '', 'transcript': ''}`. -/
def initialFormatted : Formatted :=
  { audio := [], text := "", transcript := "", tool := none, output := none }

/-- `for content in text_content: new_item['formatted']['text'] += content['text']`
over `text_content = [c for c in content if c['type'] in ['text', 'input_text']]`.
(The `if new_item.get('content')` guard skips the loop exactly when the filter
below is empty, so the guard is absorbed by the fold.) -/
def textContentOf (content : List ContentPart) : String :=
  String.join ((content.filter
    (fun c => c.type = "text" ∨ c.type = "input_text")).map (fun c => c.text))

/-- The insertion performed at the top of `_process_item_created` when the id
is fresh; because the inserted dict is aliased and mutated until the method
returns, the embedding stores the finished value `ni`. -/
def storeIfFresh (s : RealtimeConversation) (fresh : Bool) (ni : Item) :
    RealtimeConversation :=
  if fresh then
    { s with item_lookup := s.item_lookup ++ [(ni.id, ni)]
             items := s.items ++ [ni.id] }
  else s

/-- Second half of `_process_item_created`: formatted text, queued transcript,
and the `type` dispatch that sets `status` / `formatted.tool` /
`formatted.output` and may consume `queued_input_audio`. -/
def itemCreatedFinish (s : RealtimeConversation) (fresh : Bool) (ni : Item) :
    ProcOutcome :=
  let ni := { ni with formatted.text := textContentOf ni.content }
  let step2 : RealtimeConversation × Item :=
    match dictGet s.queued_transcript_items ni.id with
    | some t =>
        ({ s with queued_transcript_items :=
              dictDel s.queued_transcript_items ni.id },
         { ni with formatted.transcript := t })
    | none => (s, ni)
  let s := step2.1
  let ni := step2.2
  let step3 : RealtimeConversation × Item :=
    if ni.type = "message" then
      if ni.role = "user" then
        let ni := { ni with status := "completed" }
        match s.queued_input_audio with
        | some qa =>
            ({ s with queued_input_audio := none },
             { ni with formatted.audio := qa })
        | none => (s, ni)
      else (s, { ni with status := "in_progress" })
    else if ni.type = "function_call" then
      (s, { ni with
              status := "in_progress"
              formatted.tool := some
                { type := "function", name := ni.name, call_id := ni.call_id
                  arguments := "" } })
    else if ni.type = "function_call_output" then
      (s, { ni with status := "completed", formatted.output := some ni.output })
    else (s, ni)
  (storeIfFresh step3.1 fresh step3.2, Except.ok (some step3.2, none))

/-- `_process_item_created`.  Note the source inserts the (aliased) item into
the table before reading the queued speech span, so when the span exists but
carries no `'audio'` key yet (only `speech_started` was seen) the raised
KeyError leaves the freshly inserted item with its just-reset `formatted`. -/
def _process_item_created (s : RealtimeConversation) (item : Item) : ProcOutcome :=
  let fresh := ! dictContains s.item_lookup item.id
  let ni0 : Item := { item with formatted := initialFormatted }
  match dictGet s.queued_speech_items item.id with
  | some sp =>
      match sp.audio with
      | none => (storeIfFresh s fresh ni0, Except.error "KeyError: audio")
      | some au =>
          let s1 := { s with queued_speech_items :=
                        dictDel s.queued_speech_items item.id }
          itemCreatedFinish s1 fresh { ni0 with formatted.audio := au }
  | none => itemCreatedFinish s fresh ni0

/-- `_process_item_truncated`. -/
def _process_item_truncated (s : RealtimeConversation) (item_id : String)
    (audio_end_ms : Nat) : ProcOutcome :=
  match dictGet s.item_lookup item_id with
  | none =>
      (s, Except.error ("item.truncated: Item \"" ++ item_id ++ "\" not found"))
  | some item =>
      let end_index := audio_end_ms * default_frequency / 1000
      let item := { item with
        formatted.transcript := ""
        formatted.audio := item.formatted.audio.take end_index }
      ({ s with item_lookup := dictSetKey s.item_lookup item_id item },
       Except.ok (some item, none))

/-- `_process_item_deleted`.  `self.items.remove(item)` removes the first list
element equal to the aliased dict, i.e. the entry with this id. -/
def _process_item_deleted (s : RealtimeConversation) (item_id : String) :
    ProcOutcome :=
  match dictGet s.item_lookup item_id with
  | none =>
      (s, Except.error ("item.deleted: Item \"" ++ item_id ++ "\" not found"))
  | some item =>
      ({ s with item_lookup := dictDel s.item_lookup item.id
                items := s.items.erase item.id },
       Except.ok (some item, none))

/-- `_process_audio_transcription_completed`. -/
def _process_audio_transcription_completed (s : RealtimeConversation)
    (item_id : String) (content_index : Nat) (transcript : String) :
    ProcOutcome :=
  let formatted_transcript := if transcript = "" then " " else transcript
  match dictGet s.item_lookup item_id with
  | none =>
      ({ s with queued_transcript_items :=
            dictSet s.queued_transcript_items item_id formatted_transcript },
       Except.ok (none, none))
  | some item =>
      if h : content_index < item.content.length then
        let item := { item with
          content := item.content.set content_index
            { item.content.get ⟨content_index, h⟩ with transcript := transcript }
          formatted.transcript := formatted_transcript }
        ({ s with item_lookup := dictSetKey s.item_lookup item_id item },
         Except.ok (some item, some (Delta.transcript transcript)))
      else (s, Except.error "IndexError: list index out of range")

/-- `_process_speech_started`: unconditionally (re)assigns the span dict
`{'audio_start_ms': audio_start_ms}`. -/
def _process_speech_started (s : RealtimeConversation) (item_id : String)
    (audio_start_ms : Nat) : ProcOutcome :=
  let sp : SpeechSpan :=
    { audio_start_ms := audio_start_ms, audio_end_ms := none, audio := none }
  ({ s with queued_speech_items := dictSet s.queued_speech_items item_id sp },
   Except.ok (none, none))

/-- `_process_speech_stopped`.  The source inserts a default span when the id
is unknown and then mutates the (aliased) span in place; the net effect on the
dict is the single final write embedded here.  Python's clamping slice
`buf[start:end]` is `(buf.drop start).take (end - start)`. -/
def _process_speech_stopped (s : RealtimeConversation) (item_id : String)
    (audio_end_ms : Nat) (input_audio_buffer : Option (List Int)) : ProcOutcome :=
  let speech := (dictGet s.queued_speech_items item_id).getD
    { audio_start_ms := audio_end_ms, audio_end_ms := none, audio := none }
  let speech := { speech with audio_end_ms := some audio_end_ms }
  let speech :=
    match input_audio_buffer with
    | none => speech
    | some buf =>
        let start_index := speech.audio_start_ms * default_frequency / 1000
        let end_index := audio_end_ms * default_frequency / 1000
        let sliced := (buf.drop start_index).take (end_index - start_index)
        { speech with audio := some sliced }
  ({ s with queued_speech_items := dictSet s.queued_speech_items item_id speech },
   Except.ok (none, none))

/-- `_process_response_created`. -/
def _process_response_created (s : RealtimeConversation) (response : ResponseObj) :
    ProcOutcome :=
  if dictContains s.response_lookup response.id then (s, Except.ok (none, none))
  else
    ({ s with response_lookup := s.response_lookup ++ [(response.id, response)]
              responses := s.responses ++ [response.id] },
     Except.ok (none, none))

/-- `_process_output_item_added`. -/
def _process_output_item_added (s : RealtimeConversation) (response_id : String)
    (item : Item) : ProcOutcome :=
  match dictGet s.response_lookup response_id with
  | none =>
      (s, Except.error ("response.output_item.added: Response \"" ++
        response_id ++ "\" not found"))
  | some response =>
      let response := { response with output := response.output ++ [item.id] }
      ({ s with response_lookup :=
            dictSetKey s.response_lookup response_id response },
       Except.ok (none, none))

/-- `_process_output_item_done` (the `if not item` falsy guard corresponds to
an ill-typed payload the embedding does not represent). -/
def _process_output_item_done (s : RealtimeConversation) (item : Item) :
    ProcOutcome :=
  match dictGet s.item_lookup item.id with
  | none =>
      (s, Except.error ("response.output_item.done: Item \"" ++ item.id ++
        "\" not found"))
  | some found_item =>
      let found_item := { found_item with status := item.status }
      ({ s with item_lookup := dictSetKey s.item_lookup item.id found_item },
       Except.ok (some found_item, none))

/-- `_process_content_part_added`. -/
def _process_content_part_added (s : RealtimeConversation) (item_id : String)
    (part : ContentPart) : ProcOutcome :=
  match dictGet s.item_lookup item_id with
  | none =>
      (s, Except.error ("response.content_part.added: Item \"" ++ item_id ++
        "\" not found"))
  | some item =>
      let item := { item with content := item.content ++ [part] }
      ({ s with item_lookup := dictSetKey s.item_lookup item_id item },
       Except.ok (some item, none))

/-- `_process_audio_transcript_delta`. -/
def _process_audio_transcript_delta (s : RealtimeConversation) (item_id : String)
    (content_index : Nat) (delta : String) : ProcOutcome :=
  match dictGet s.item_lookup item_id with
  | none =>
      (s, Except.error ("response.audio_transcript.delta: Item \"" ++ item_id ++
        "\" not found"))
  | some item =>
      if h : content_index < item.content.length then
        let c := item.content.get ⟨content_index, h⟩
        let item := { item with
          content := item.content.set content_index
            { c with transcript := c.transcript ++ delta }
          formatted.transcript := item.formatted.transcript ++ delta }
        ({ s with item_lookup := dictSetKey s.item_lookup item_id item },
         Except.ok (some item, some (Delta.transcript delta)))
      else (s, Except.error "IndexError: list index out of range")

/-- `_process_audio_delta`; base64 decoding is abstracted by passing the
decoded int16 samples directly. -/
def _process_audio_delta (s : RealtimeConversation) (item_id : String)
    (_content_index : Nat) (delta : List Int) : ProcOutcome :=
  match dictGet s.item_lookup item_id with
  | none =>
      (s, Except.error ("response.audio.delta: Item \"" ++ item_id ++
        "\" not found"))
  | some item =>
      let item := { item with
        formatted.audio := item.formatted.audio ++ delta }
      ({ s with item_lookup := dictSetKey s.item_lookup item_id item },
       Except.ok (some item, some (Delta.audio delta)))

/-- `_process_text_delta`. -/
def _process_text_delta (s : RealtimeConversation) (item_id : String)
    (content_index : Nat) (delta : String) : ProcOutcome :=
  match dictGet s.item_lookup item_id with
  | none =>
      (s, Except.error ("response.text.delta: Item \"" ++ item_id ++
        "\" not found"))
  | some item =>
      if h : content_index < item.content.length then
        let c := item.content.get ⟨content_index, h⟩
        let item := { item with
          content := item.content.set content_index { c with text := c.text ++ delta }
          formatted.text := item.formatted.text ++ delta }
        ({ s with item_lookup := dictSetKey s.item_lookup item_id item },
         Except.ok (some item, some (Delta.text delta)))
      else (s, Except.error "IndexError: list index out of range")

/-- `_process_function_call_arguments_delta`.  `item['arguments'] += delta` is
executed before `item['formatted']['tool']['arguments']` is read, so when
`formatted` has no tool the KeyError leaves the raw arguments already grown. -/
def _process_function_call_arguments_delta (s : RealtimeConversation)
    (item_id : String) (delta : String) : ProcOutcome :=
  match dictGet s.item_lookup item_id with
  | none =>
      (s, Except.error ("response.function_call_arguments.delta: Item \"" ++
        item_id ++ "\" not found"))
  | some item =>
      let item1 := { item with arguments := item.arguments ++ delta }
      match item1.formatted.tool with
      | none =>
          ({ s with item_lookup := dictSetKey s.item_lookup item_id item1 },
           Except.error "KeyError: tool")
      | some tool =>
          let item2 := { item1 with
            formatted.tool := some { tool with arguments := tool.arguments ++ delta } }
          ({ s with item_lookup := dictSetKey s.item_lookup item_id item2 },
           Except.ok (some item2, some (Delta.arguments delta)))

/-! ### Event dispatch (`process_event`) -/

/-- The type-specific payload of a server event (the fields the registered
processor reads out of the event dict). -/
inductive EventFields where
  | itemCreated (item : Item)
  | itemTruncated (item_id : String) (audio_end_ms : Nat)
  | itemDeleted (item_id : String)
  | transcriptionCompleted (item_id : String) (content_index : Nat) (transcript : String)
  | speechStarted (item_id : String) (audio_start_ms : Nat)
  | speechStopped (item_id : String) (audio_end_ms : Nat)
  | responseCreated (response : ResponseObj)
  | outputItemAdded (response_id : String) (item : Item)
  | outputItemDone (item : Item)
  | contentPartAdded (item_id : String) (part : ContentPart)
  | audioTranscriptDelta (item_id : String) (content_index : Nat) (delta : String)
  | audioDelta (item_id : String) (content_index : Nat) (delta : List Int)
  | textDelta (item_id : String) (content_index : Nat) (delta : String)
  | functionCallArgumentsDelta (item_id : String) (delta : String)
  deriving Repr, DecidableEq

/-- The event-type string whose processor reads exactly these fields. -/
def eventTypeOf : EventFields → String
  | .itemCreated _ => "conversation.item.created"
  | .itemTruncated _ _ => "conversation.item.truncated"
  | .itemDeleted _ => "conversation.item.deleted"
  | .transcriptionCompleted _ _ _ =>
      "conversation.item.input_audio_transcription.completed"
  | .speechStarted _ _ => "input_audio_buffer.speech_started"
  | .speechStopped _ _ => "input_audio_buffer.speech_stopped"
  | .responseCreated _ => "response.created"
  | .outputItemAdded _ _ => "response.output_item.added"
  | .outputItemDone _ => "response.output_item.done"
  | .contentPartAdded _ _ => "response.content_part.added"
  | .audioTranscriptDelta _ _ _ => "response.audio_transcript.delta"
  | .audioDelta _ _ _ => "response.audio.delta"
  | .textDelta _ _ _ => "response.text.delta"
  | .functionCallArgumentsDelta _ _ => "response.function_call_arguments.delta"

/-- The keys of the `self.EventProcessors` dispatch table. -/
def eventProcessorKeys : List String :=
  [ "conversation.item.created",
    "conversation.item.truncated",
    "conversation.item.deleted",
    "conversation.item.input_audio_transcription.completed",
    "input_audio_buffer.speech_started",
    "input_audio_buffer.speech_stopped",
    "response.created",
    "response.output_item.added",
    "response.output_item.done",
    "response.content_part.added",
    "response.audio_transcript.delta",
    "response.audio.delta",
    "response.text.delta",
    "response.function_call_arguments.delta" ]

/-- An incoming event dict: possibly missing `event_id` or `type`, plus the
type-specific fields. -/
structure RawEvent where
  event_id : Option String
  type : Option String
  fields : EventFields
  deriving Repr, DecidableEq

/-- Running the processor selected by the dispatch table.  Only the
`speech_stopped` processor consumes the extra `*args` context (the caller's
input-audio buffer). -/
def runProcessor (s : RealtimeConversation) (f : EventFields)
    (input_audio_buffer : Option (List Int)) : ProcOutcome :=
  match f with
  | .itemCreated item => _process_item_created s item
  | .itemTruncated item_id audio_end_ms =>
      _process_item_truncated s item_id audio_end_ms
  | .itemDeleted item_id => _process_item_deleted s item_id
  | .transcriptionCompleted item_id content_index transcript =>
      _process_audio_transcription_completed s item_id content_index transcript
  | .speechStarted item_id audio_start_ms =>
      _process_speech_started s item_id audio_start_ms
  | .speechStopped item_id audio_end_ms =>
      _process_speech_stopped s item_id audio_end_ms input_audio_buffer
  | .responseCreated response => _process_response_created s response
  | .outputItemAdded response_id item =>
      _process_output_item_added s response_id item
  | .outputItemDone item => _process_output_item_done s item
  | .contentPartAdded item_id part => _process_content_part_added s item_id part
  | .audioTranscriptDelta item_id content_index delta =>
      _process_audio_transcript_delta s item_id content_index delta
  | .audioDelta item_id content_index delta =>
      _process_audio_delta s item_id content_index delta
  | .textDelta item_id content_index delta =>
      _process_text_delta s item_id content_index delta
  | .functionCallArgumentsDelta item_id delta =>
      _process_function_call_arguments_delta s item_id delta

/-- `process_event`: validate `event_id` and `type`, look the processor up in
the dispatch table, and run it.  A registered type whose required fields are
absent from the event dict (embedded as a payload for a different type) makes
the processor raise a KeyError before it mutates anything, since every
processor reads its event fields first. -/
def process_event (s : RealtimeConversation) (ev : RawEvent)
    (input_audio_buffer : Option (List Int)) : ProcOutcome :=
  match ev.event_id with
  | none => (s, Except.error "Missing event_id on event")
  | some _ =>
    match ev.type with
    | none => (s, Except.error "Missing type on event")
    | some t =>
      if t ∈ eventProcessorKeys then
        if t = eventTypeOf ev.fields then runProcessor s ev.fields input_audio_buffer
        else (s, Except.error "KeyError: missing event field")
      else (s, Except.error ("Missing event processor for " ++ t))

/-- Processing a whole sequence of events, each with its own `*args` context;
a raised error drops the offending event but keeps the state it left behind,
exactly as the orchestrator does. -/
def runEvents (s : RealtimeConversation) :
    List (RawEvent × Option (List Int)) → RealtimeConversation
  | [] => s
  | (ev, buf) :: rest => runEvents (process_event s ev buf).1 rest

/-! ### Event bus (`event_handler.py`) -/

/-- State of a `RealtimeEventHandler`; handlers are abstract values of `H`. -/
structure RealtimeEventHandler (H : Type) where
  event_handlers : List (String × List H)
  next_event_handlers : List (String × List H)
  deriving Repr, DecidableEq

/-- A freshly constructed handler (also the state after `clear_event_handlers`). -/
def emptyHandler (H : Type) : RealtimeEventHandler H :=
  { event_handlers := [], next_event_handlers := [] }

/-- `on` (Lean reserves that name, hence `on_event`):
`self.event_handlers.setdefault(event_name, []).append(callback)`. -/
def on_event {H : Type} (b : RealtimeEventHandler H) (event_name : String)
    (callback : H) : RealtimeEventHandler H :=
  let grown := ((dictGet b.event_handlers event_name).getD []) ++ [callback]
  { b with event_handlers := dictSet b.event_handlers event_name grown }

/-- `on_next`: same as `on` for the one-shot table. -/
def on_next {H : Type} (b : RealtimeEventHandler H) (event_name : String)
    (callback : H) : RealtimeEventHandler H :=
  let grown := ((dictGet b.next_event_handlers event_name).getD []) ++ [callback]
  { b with next_event_handlers := dictSet b.next_event_handlers event_name grown }

/-- `off`: note the whole body is guarded by
`if event_name in self.event_handlers`, and `return True` is reached whenever
no exception fires — in particular when the topic has no handler list at all. -/
def off {H : Type} [DecidableEq H] (b : RealtimeEventHandler H)
    (event_name : String) (callback : Option H) :
    RealtimeEventHandler H × Except String Bool :=
  match dictGet b.event_handlers event_name with
  | some handlers =>
      match callback with
      | some cb =>
          if cb ∈ handlers then
            ({ b with event_handlers :=
                  dictSetKey b.event_handlers event_name (handlers.erase cb) },
             Except.ok true)
          else
            (b, Except.error ("Could not turn off specified event listener for \"" ++
              event_name ++ "\": not found as a listener"))
      | none =>
          ({ b with event_handlers := dictDel b.event_handlers event_name },
           Except.ok true)
  | none => (b, Except.ok true)

/-- `dispatch`: the returned list is the sequence of handler invocations (all
permanent handlers for the topic in registration order, then the one-shot
handlers in registration order); the one-shot list for the topic is popped. -/
def dispatch {H : Type} (b : RealtimeEventHandler H) (event_name : String) :
    List H × RealtimeEventHandler H :=
  let handlers := (dictGet b.event_handlers event_name).getD []
  let next_handlers := (dictGet b.next_event_handlers event_name).getD []
  (handlers ++ next_handlers,
   { b with next_event_handlers := dictDel b.next_event_handlers event_name })

/-- A registration step against the bus. -/
inductive RegOp (H : Type) where
  | onEvent (topic : String) (h : H)
  | onNext (topic : String) (h : H)
  deriving Repr, DecidableEq

/-- Applying a sequence of registrations in order. -/
def applyRegs {H : Type} (b : RealtimeEventHandler H) :
    List (RegOp H) → RealtimeEventHandler H
  | [] => b
  | RegOp.onEvent t h :: rest => applyRegs (on_event b t h) rest
  | RegOp.onNext t h :: rest => applyRegs (on_next b t h) rest

/-- The permanent registrations a sequence contributes to topic `t`, in order. -/
def onRegsFor {H : Type} (t : String) (regs : List (RegOp H)) : List H :=
  regs.filterMap fun op =>
    match op with
    | RegOp.onEvent t1 h => if t1 = t then some h else none
    | RegOp.onNext _ _ => none

/-- The one-shot registrations a sequence contributes to topic `t`, in order. -/
def onNextRegsFor {H : Type} (t : String) (regs : List (RegOp H)) : List H :=
  regs.filterMap fun op =>
    match op with
    | RegOp.onEvent _ _ => none
    | RegOp.onNext t1 h => if t1 = t then some h else none

/-! ### Client operations (`client.py`) -/

/-- An event handed to `self.realtime.send(...)` by the client operations
modelled here. -/
inductive SentEvent where
  | responseCancel
  | itemTruncate (item_id : String) (content_index : Nat) (audio_end_ms : Nat)
  | sessionUpdate (tools : List String)
  deriving Repr, DecidableEq

/-- `cancel_response(item_id, sample_count)`: the conversation is read through
`self.conversation.get_item`.  The first component lists the events sent before
the call returns or raises.  `int((sample_count / 24000) * 1000)` is embedded
as the exact rational floor (float rounding is not modelled; no claim depends
on the value). -/
def cancel_response (conv : RealtimeConversation) (item_id : Option String)
    (sample_count : Nat) : List SentEvent × Except String (Option Item) :=
  match item_id with
  | none => ([SentEvent.responseCancel], Except.ok none)
  | some iid =>
      match dictGet conv.item_lookup iid with
      | none =>
          ([], Except.error ("Could not find item \"" ++ iid ++ "\""))
      | some item =>
          if item.type ≠ "message" then
            ([], Except.error "Can only cancel_response messages with type \"message\"")
          else if item.role ≠ "assistant" then
            ([], Except.error "Can only cancel_response messages with role \"assistant\"")
          else
            match item.content.findIdx? (fun c => c.type = "audio") with
            | none =>
                ([SentEvent.responseCancel],
                 Except.error "Could not find audio on item to cancel")
            | some audio_index =>
                ([SentEvent.responseCancel,
                  SentEvent.itemTruncate iid audio_index
                    (sample_count * 1000 / default_frequency)],
                 Except.ok (some item))

/-- The tool definition dicts passed to `add_tool`; `name` is `None` when the
dict has no `'name'` key (`definition.get('name')`). -/
structure ToolDefinition where
  name : Option String
  description : String
  deriving Repr, DecidableEq

/-- A tool handler; `callable` embeds Python's `callable(handler)` test. -/
structure ToolHandler where
  hid : Nat
  callable : Bool
  deriving Repr, DecidableEq

/-- The slice of `RealtimeClient` state the tool operations touch:
`self.tools`, `self.session_config["tools"]`, and the events sent to the
transport. -/
structure ClientToolState where
  tools : List (String × (ToolDefinition × ToolHandler))
  session_config_tools : List String
  connected : Bool
  deriving Repr, DecidableEq

/-- `update_session(**kwargs)` restricted to its `tools` key: merge into the
session config and, when connected, push it to the transport. -/
def update_session (c : ClientToolState) (tools : List String) :
    ClientToolState × List SentEvent :=
  let c1 := { c with session_config_tools := tools }
  if c.connected then (c1, [SentEvent.sessionUpdate tools]) else (c1, [])

/-- `add_tool(definition, handler)`.  After registering the tool the source
runs `self.update_session({"tools": t})`, which passes a positional dict to
the keyword-only `async def update_session(self, **kwargs)`: Python raises
`TypeError` while binding the arguments, before any coroutine exists, so the
session config is never touched and nothing is sent. -/
def add_tool (c : ClientToolState) (definition : ToolDefinition)
    (handler : ToolHandler) :
    ClientToolState × List SentEvent × Except String (ToolDefinition × ToolHandler) :=
  match definition.name with
  | none => (c, [], Except.error "Missing tool name in definition")
  | some name =>
      if name = "" then (c, [], Except.error "Missing tool name in definition")
      else if dictContains c.tools name then
        (c, [], Except.error ("Tool \"" ++ name ++ "\" already added. Please use .remove_tool(\"" ++ name ++ "\") before trying to add again."))
      else if ¬ handler.callable then
        (c, [], Except.error ("Tool \"" ++ name ++ "\" handler must be a function"))
      else
        let c1 := { c with tools := dictSet c.tools name (definition, handler) }
        (c1, [],
         Except.error "TypeError: update_session() takes 1 positional argument but 2 were given")

/-- `remove_tool(name)`: deletes the registration and returns `True`; it never
calls `update_session`, so the session config is untouched and nothing is sent. -/
def remove_tool (c : ClientToolState) (name : String) :
    ClientToolState × List SentEvent × Except String Bool :=
  if ¬ dictContains c.tools name then
    (c, [], Except.error ("Tool \"" ++ name ++ "\" does not exist, cannot be removed."))
  else
    ({ c with tools := dictDel c.tools name }, [], Except.ok true)

/-! ### Concrete fixtures used by the witness theorems -/

/-- Thirty audio samples (1 ms at 24000 Hz is 24 samples, so a 1 ms truncation
of this buffer is proper). -/
def sampleAudio : List Int := List.replicate 30 7

/-- A completed assistant message holding audio, stored as `"it_1"`. -/
def sampleAssistantItem : Item :=
  { id := "it_1", type := "message", role := "assistant"
    status := "in_progress"
    content := [{ type := "audio", text := "", transcript := "hello" }]
    name := "", call_id := "", arguments := "", output := ""
    formatted := { audio := sampleAudio, text := "", transcript := "hello"
                   tool := none, output := none } }

/-- A user message with one `input_text` part, as delivered in an
`item.created` event (its id is `"u_1"`). -/
def sampleUserItem : Item :=
  { id := "u_1", type := "message", role := "user", status := ""
    content := [{ type := "input_text", text := "hi", transcript := "" }]
    name := "", call_id := "", arguments := "", output := ""
    formatted := { audio := [], text := "", transcript := ""
                   tool := none, output := none } }

/-- A conversation holding `sampleAssistantItem` under `"it_1"`. -/
def sampleConversation : RealtimeConversation :=
  { clearedConversation with
      item_lookup := [("it_1", sampleAssistantItem)]
      items := ["it_1"] }

/-- A conversation additionally holding `sampleUserItem` under `"u_1"`. -/
def sampleConversationWithUser : RealtimeConversation :=
  { clearedConversation with
      item_lookup := [("it_1", sampleAssistantItem), ("u_1", sampleUserItem)]
      items := ["it_1", "u_1"] }

/-- A tool definition named `"get_weather"`. -/
def sampleToolDefinition : ToolDefinition :=
  { name := some "get_weather", description := "d" }

/-- A callable tool handler. -/
def sampleToolHandler : ToolHandler := { hid := 0, callable := true }

/-- A connected client with no registered tools; the session config still
carries a stale tool list, so any re-publication would be visible. -/
def clientNoTools : ClientToolState :=
  { tools := [], session_config_tools := ["stale"], connected := true }

/-- The same client after `sampleToolDefinition` has been registered. -/
def clientWithTool : ClientToolState :=
  { tools := [("get_weather", (sampleToolDefinition, sampleToolHandler))]
    session_config_tools := ["stale"], connected := true }

/-! ### Lemmas about the ordered-dictionary embedding -/

theorem dictGet_isSome_iff_mem_keys {α : Type} (l : List (String × α)) (k : String) :
    (dictGet l k).isSome ↔ k ∈ l.map Prod.fst := by
  induction l with
  | nil => simp [dictGet]
  | cons p l ih =>
      by_cases h : p.1 = k
      · simp [dictGet, h]
      · simp [dictGet, h, ih, Ne.symm h]

theorem dictGet_dictSetKey_isSome {α : Type} (l : List (String × α))
    (k k2 : String) (v : α) :
    (dictGet (dictSetKey l k v) k2).isSome = (dictGet l k2).isSome := by
  induction l with
  | nil => simp [dictSetKey]
  | cons p l ih =>
      by_cases h : p.1 = k
      · subst h
        by_cases h2 : p.1 = k2
        · subst h2; simp [dictSetKey, dictGet]
        · simp [dictSetKey, dictGet, h2]
      · simp only [dictSetKey, if_neg h, dictGet]
        by_cases h2 : p.1 = k2
        · simp [h2]
        · simp [h2, ih]

theorem dictGet_dictSetKey_self {α : Type} (l : List (String × α))
    (k : String) (v : α) (h : (dictGet l k).isSome) :
    dictGet (dictSetKey l k v) k = some v := by
  induction l with
  | nil => simp [dictGet] at h
  | cons p l ih =>
      by_cases hp : p.1 = k
      · simp [dictSetKey, dictGet, hp]
      · simp only [dictGet, hp, if_false, if_neg hp] at h
        simp [dictSetKey, dictGet, hp, ih h]

theorem dictGet_dictSetKey_ne {α : Type} (l : List (String × α))
    (k k2 : String) (v : α) (h : k2 ≠ k) :
    dictGet (dictSetKey l k v) k2 = dictGet l k2 := by
  induction l with
  | nil => simp [dictSetKey]
  | cons p l ih =>
      by_cases hp : p.1 = k
      · subst hp
        simp [dictSetKey, dictGet, Ne.symm h]
      · simp only [dictSetKey, if_neg hp, dictGet]
        by_cases hp2 : p.1 = k2
        · simp [hp2]
        · simp [hp2, ih]

theorem dictSetKey_self_eq {α : Type} (l : List (String × α))
    (k : String) (v : α) (h : dictGet l k = some v) :
    dictSetKey l k v = l := by
  induction l with
  | nil => simp [dictGet] at h
  | cons p l ih =>
      by_cases hp : p.1 = k
      · subst hp
        simp [dictGet] at h
        simp [dictSetKey, ← h]
      · simp only [dictGet, hp, if_neg hp] at h
        simp [dictSetKey, hp, ih h]

theorem mem_dictSetKey {α : Type} (l : List (String × α))
    (k : String) (v : α) (p : String × α) (h : p ∈ dictSetKey l k v) :
    p = (k, v) ∨ p ∈ l := by
  induction l with
  | nil => simp [dictSetKey] at h
  | cons q l ih =>
      by_cases hq : q.1 = k
      · simp [dictSetKey, hq] at h
        rcases h with h | h
        · exact Or.inl h
        · exact Or.inr (List.mem_cons_of_mem _ h)
      · simp [dictSetKey, hq] at h
        rcases h with h | h
        · exact Or.inr (h ▸ List.mem_cons_self _ _)
        · rcases ih h with h2 | h2
          · exact Or.inl h2
          · exact Or.inr (List.mem_cons_of_mem _ h2)

theorem dictDel_cons_drop {α : Type} (p : String × α) (l : List (String × α))
    (k : String) (hp : p.1 = k) : dictDel (p :: l) k = dictDel l k := by
  simp [dictDel, List.filter_cons, hp]

theorem dictDel_cons_keep {α : Type} (p : String × α) (l : List (String × α))
    (k : String) (hp : ¬ p.1 = k) : dictDel (p :: l) k = p :: dictDel l k := by
  simp [dictDel, List.filter_cons, hp]

theorem dictGet_dictDel_self {α : Type} (l : List (String × α)) (k : String) :
    dictGet (dictDel l k) k = none := by
  induction l with
  | nil => rfl
  | cons p l ih =>
      by_cases hp : p.1 = k
      · rw [dictDel_cons_drop p l k hp]; exact ih
      · rw [dictDel_cons_keep p l k hp]
        simp [dictGet, hp, ih]

theorem dictGet_dictDel_ne {α : Type} (l : List (String × α))
    (k k2 : String) (h : k2 ≠ k) :
    dictGet (dictDel l k) k2 = dictGet l k2 := by
  induction l with
  | nil => rfl
  | cons p l ih =>
      by_cases hp : p.1 = k
      · have hpk2 : ¬ p.1 = k2 := by
          rw [hp]; exact fun hc => h hc.symm
        rw [dictDel_cons_drop p l k hp, ih]
        simp [dictGet, hpk2]
      · rw [dictDel_cons_keep p l k hp]
        simp only [dictGet]
        by_cases hp2 : p.1 = k2
        · simp [hp2]
        · simp [hp2, ih]

theorem mem_dictDel {α : Type} (l : List (String × α)) (k : String)
    (p : String × α) (h : p ∈ dictDel l k) : p ∈ l :=
  List.mem_of_mem_filter h

theorem dictGet_append_single {α : Type} (l : List (String × α))
    (k k2 : String) (v : α) :
    dictGet (l ++ [(k, v)]) k2 =
      if (dictGet l k2).isSome then dictGet l k2
      else if k = k2 then some v else none := by
  induction l with
  | nil => simp [dictGet]
  | cons p l ih =>
      by_cases hp : p.1 = k2 <;> simp [dictGet, hp, ih]

theorem dictGet_dictSet_self {α : Type} (l : List (String × α))
    (k : String) (v : α) : dictGet (dictSet l k v) k = some v := by
  unfold dictSet dictContains
  by_cases h : (dictGet l k).isSome
  · simp [h, dictGet_dictSetKey_self l k v h]
  · simp [h, dictGet_append_single]

theorem dictGet_dictSet_ne {α : Type} (l : List (String × α))
    (k k2 : String) (v : α) (h : k2 ≠ k) :
    dictGet (dictSet l k v) k2 = dictGet l k2 := by
  unfold dictSet dictContains
  by_cases hc : (dictGet l k).isSome
  · simp [hc, dictGet_dictSetKey_ne l k k2 v h]
  · simp only [hc, if_false, Bool.false_eq_true, dictGet_append_single]
    by_cases h2 : (dictGet l k2).isSome
    · simp [h2]
    · simp [h2, Ne.symm h, Option.not_isSome_iff_eq_none.mp h2]

theorem dictGet_mem {α : Type} (l : List (String × α)) (k : String) (v : α)
    (h : dictGet l k = some v) : (k, v) ∈ l := by
  induction l with
  | nil => simp [dictGet] at h
  | cons p l ih =>
      by_cases hp : p.1 = k
      · subst hp
        simp [dictGet] at h
        subst h
        exact List.mem_cons_self _ _
      · simp only [dictGet, if_neg hp] at h
        exact List.mem_cons_of_mem _ (ih h)

theorem dictContains_false {α : Type} (l : List (String × α)) (k : String)
    (h : dictContains l k = false) : dictGet l k = none := by
  unfold dictContains at h
  exact Option.not_isSome_iff_eq_none.mp (by simp [h])

/-! ### The lookup-table / ordered-list synchronisation invariant (C1) -/

/-- The store is well formed: the ordered list has no duplicate ids, every
stored object carries the id it is keyed under, and an id is a key of the
lookup table exactly when it occurs in the ordered list. -/
def StoreWF (s : RealtimeConversation) : Prop :=
  s.items.Nodup ∧
  (∀ p ∈ s.item_lookup, p.2.id = p.1) ∧
  (∀ id : String, (dictGet s.item_lookup id).isSome ↔ id ∈ s.items)

theorem storeWF_same_store (s s2 : RealtimeConversation) (h : StoreWF s)
    (hl : s2.item_lookup = s.item_lookup) (hi : s2.items = s.items) :
    StoreWF s2 := by
  unfold StoreWF
  rw [hl, hi]
  exact h

theorem storeWF_insert (s : RealtimeConversation) (ni : Item) (h : StoreWF s)
    (hni : dictGet s.item_lookup ni.id = none) :
    StoreWF { s with item_lookup := s.item_lookup ++ [(ni.id, ni)]
                     items := s.items ++ [ni.id] } := by
  obtain ⟨hnd, hid, hiff⟩ := h
  have hmem : ni.id ∉ s.items := by
    rw [← hiff]
    simp [hni]
  refine ⟨?_, ?_, ?_⟩
  · simp [List.nodup_append, hnd, hmem]
  · intro p hp
    rcases List.mem_append.mp hp with hp | hp
    · exact hid p hp
    · simp at hp
      simp [hp]
  · intro id
    rw [dictGet_append_single]
    by_cases h2 : (dictGet s.item_lookup id).isSome
    · simp [h2, (hiff id).mp h2]
    · by_cases h3 : ni.id = id
      · simp [h2, h3]
      · simp [h2, h3, Ne.symm h3]
        rw [← hiff id]
        simpa using h2

theorem storeWF_setKey (s : RealtimeConversation) (k : String) (v : Item)
    (h : StoreWF s) (hv : v.id = k) :
    StoreWF { s with item_lookup := dictSetKey s.item_lookup k v } := by
  obtain ⟨hnd, hid, hiff⟩ := h
  refine ⟨hnd, ?_, ?_⟩
  · intro p hp
    rcases mem_dictSetKey _ _ _ _ hp with hp | hp
    · simp [hp, hv]
    · exact hid p hp
  · intro id
    rw [show ({ s with item_lookup := dictSetKey s.item_lookup k v } :
          RealtimeConversation).item_lookup = dictSetKey s.item_lookup k v from rfl]
    rw [dictGet_dictSetKey_isSome]
    exact hiff id

theorem storeWF_delete (s : RealtimeConversation) (k : String) (h : StoreWF s) :
    StoreWF { s with item_lookup := dictDel s.item_lookup k
                     items := s.items.erase k } := by
  obtain ⟨hnd, hid, hiff⟩ := h
  refine ⟨hnd.erase k, ?_, ?_⟩
  · intro p hp
    exact hid p (mem_dictDel _ _ _ hp)
  · intro id
    by_cases h2 : id = k
    · subst h2
      simp [dictGet_dictDel_self, hnd.mem_erase_iff]
    · rw [show ({ s with item_lookup := dictDel s.item_lookup k
                         items := s.items.erase k } :
            RealtimeConversation).item_lookup = dictDel s.item_lookup k from rfl]
      rw [dictGet_dictDel_ne _ _ _ h2, hnd.mem_erase_iff]
      simp [h2, hiff id]

theorem storeWF_storeIfFresh (s : RealtimeConversation) (fresh : Bool) (ni : Item)
    (h : StoreWF s)
    (hfresh : fresh = true → dictGet s.item_lookup ni.id = none) :
    StoreWF (storeIfFresh s fresh ni) := by
  cases fresh
  · simpa [storeIfFresh] using h
  · rw [show storeIfFresh s true ni =
        { s with item_lookup := s.item_lookup ++ [(ni.id, ni)]
                 items := s.items ++ [ni.id] } from rfl]
    exact storeWF_insert s ni h (hfresh rfl)

theorem itemCreatedFinish_shape (s : RealtimeConversation) (fresh : Bool)
    (ni : Item) :
    ∃ s2 ni2,
      itemCreatedFinish s fresh ni =
        (storeIfFresh s2 fresh ni2, Except.ok (some ni2, none)) ∧
      s2.item_lookup = s.item_lookup ∧ s2.items = s.items ∧ ni2.id = ni.id := by
  unfold itemCreatedFinish
  dsimp only
  cases h1 : dictGet s.queued_transcript_items ni.id <;> dsimp only <;>
    (repeat' split) <;> exact ⟨_, _, rfl, rfl, rfl, rfl⟩

theorem storeWF_itemCreatedFinish (s0 s : RealtimeConversation) (fresh : Bool)
    (ni : Item) (h : StoreWF s0)
    (hl : s.item_lookup = s0.item_lookup) (hi : s.items = s0.items)
    (hfr : fresh = true → dictGet s0.item_lookup ni.id = none) :
    StoreWF (itemCreatedFinish s fresh ni).1 := by
  obtain ⟨s2, ni2, heq, hl2, hi2, hid⟩ := itemCreatedFinish_shape s fresh ni
  rw [heq]
  refine storeWF_storeIfFresh s2 fresh ni2
    (storeWF_same_store s0 s2 h (hl2.trans hl) (hi2.trans hi)) ?_
  intro hb
  rw [hl2.trans hl, hid]
  exact hfr hb

theorem storeWF_item_created (s : RealtimeConversation) (item : Item)
    (h : StoreWF s) : StoreWF (_process_item_created s item).1 := by
  unfold _process_item_created
  have hfresh : (! dictContains s.item_lookup item.id) = true →
      dictGet s.item_lookup item.id = none := by
    intro hb
    exact dictContains_false _ _ (by simpa using hb)
  cases hq : dictGet s.queued_speech_items item.id with
  | none => exact storeWF_itemCreatedFinish s s _ _ h rfl rfl hfresh
  | some sp =>
      dsimp only
      cases hau : sp.audio with
      | none => exact storeWF_storeIfFresh s _ _ h hfresh
      | some au => exact storeWF_itemCreatedFinish s _ _ _ h rfl rfl hfresh

theorem storeWF_runProcessor (s : RealtimeConversation) (f : EventFields)
    (buf : Option (List Int)) (h : StoreWF s) :
    StoreWF (runProcessor s f buf).1 := by
  cases f with
  | itemCreated item => exact storeWF_item_created s item h
  | itemTruncated item_id ms =>
      show StoreWF (_process_item_truncated s item_id ms).1
      unfold _process_item_truncated
      cases hg : dictGet s.item_lookup item_id with
      | none => exact h
      | some item =>
          have hid : item.id = item_id := (h.2.1 _ (dictGet_mem _ _ _ hg))
          exact storeWF_setKey s item_id _ h hid
  | itemDeleted item_id =>
      show StoreWF (_process_item_deleted s item_id).1
      unfold _process_item_deleted
      cases hg : dictGet s.item_lookup item_id with
      | none => exact h
      | some item => exact storeWF_delete s item.id h
  | transcriptionCompleted item_id ci transcript =>
      show StoreWF
        (_process_audio_transcription_completed s item_id ci transcript).1
      unfold _process_audio_transcription_completed
      cases hg : dictGet s.item_lookup item_id with
      | none => exact storeWF_same_store s _ h rfl rfl
      | some item =>
          have hid : item.id = item_id := (h.2.1 _ (dictGet_mem _ _ _ hg))
          dsimp only
          split
          · exact storeWF_setKey s item_id _ h hid
          · exact h
  | speechStarted item_id ms =>
      exact storeWF_same_store s _ h rfl rfl
  | speechStopped item_id ms =>
      exact storeWF_same_store s _ h rfl rfl
  | responseCreated response =>
      show StoreWF (_process_response_created s response).1
      unfold _process_response_created
      split
      · exact h
      · exact storeWF_same_store s _ h rfl rfl
  | outputItemAdded response_id item =>
      show StoreWF (_process_output_item_added s response_id item).1
      unfold _process_output_item_added
      cases hg : dictGet s.response_lookup response_id with
      | none => exact h
      | some response => exact storeWF_same_store s _ h rfl rfl
  | outputItemDone item =>
      show StoreWF (_process_output_item_done s item).1
      unfold _process_output_item_done
      cases hg : dictGet s.item_lookup item.id with
      | none => exact h
      | some found =>
          have hid : found.id = item.id := (h.2.1 _ (dictGet_mem _ _ _ hg))
          exact storeWF_setKey s item.id _ h hid
  | contentPartAdded item_id part =>
      show StoreWF (_process_content_part_added s item_id part).1
      unfold _process_content_part_added
      cases hg : dictGet s.item_lookup item_id with
      | none => exact h
      | some item =>
          have hid : item.id = item_id := (h.2.1 _ (dictGet_mem _ _ _ hg))
          exact storeWF_setKey s item_id _ h hid
  | audioTranscriptDelta item_id ci delta =>
      show StoreWF (_process_audio_transcript_delta s item_id ci delta).1
      unfold _process_audio_transcript_delta
      cases hg : dictGet s.item_lookup item_id with
      | none => exact h
      | some item =>
          have hid : item.id = item_id := (h.2.1 _ (dictGet_mem _ _ _ hg))
          dsimp only
          split
          · exact storeWF_setKey s item_id _ h hid
          · exact h
  | audioDelta item_id ci delta =>
      show StoreWF (_process_audio_delta s item_id ci delta).1
      unfold _process_audio_delta
      cases hg : dictGet s.item_lookup item_id with
      | none => exact h
      | some item =>
          have hid : item.id = item_id := (h.2.1 _ (dictGet_mem _ _ _ hg))
          exact storeWF_setKey s item_id _ h hid
  | textDelta item_id ci delta =>
      show StoreWF (_process_text_delta s item_id ci delta).1
      unfold _process_text_delta
      cases hg : dictGet s.item_lookup item_id with
      | none => exact h
      | some item =>
          have hid : item.id = item_id := (h.2.1 _ (dictGet_mem _ _ _ hg))
          dsimp only
          split
          · exact storeWF_setKey s item_id _ h hid
          · exact h
  | functionCallArgumentsDelta item_id delta =>
      show StoreWF (_process_function_call_arguments_delta s item_id delta).1
      unfold _process_function_call_arguments_delta
      cases hg : dictGet s.item_lookup item_id with
      | none => exact h
      | some item =>
          have hid : item.id = item_id := (h.2.1 _ (dictGet_mem _ _ _ hg))
          dsimp only
          cases ht : item.formatted.tool with
          | none => exact storeWF_setKey s item_id _ h hid
          | some tool => exact storeWF_setKey s item_id _ h hid

theorem storeWF_process_event (s : RealtimeConversation) (ev : RawEvent)
    (buf : Option (List Int)) (h : StoreWF s) :
    StoreWF (process_event s ev buf).1 := by
  unfold process_event
  cases ev.event_id with
  | none => exact h
  | some eid =>
      cases ev.type with
      | none => exact h
      | some t =>
          dsimp only
          split
          · split
            · exact storeWF_runProcessor s ev.fields buf h
            · exact h
          · exact h

theorem storeWF_runEvents (s : RealtimeConversation)
    (evs : List (RawEvent × Option (List Int))) (h : StoreWF s) :
    StoreWF (runEvents s evs) := by
  induction evs generalizing s with
  | nil => exact h
  | cons e rest ih =>
      exact ih _ (storeWF_process_event s e.1 e.2 h)

theorem storeWF_cleared : StoreWF clearedConversation := by
  refine ⟨List.nodup_nil, ?_, ?_⟩
  · intro p hp
    simp [clearedConversation] at hp
  · intro id
    simp [clearedConversation, dictGet]

/-- C1: starting from a cleared conversation, after processing any sequence of
events (with any `*args` contexts, and whether each event succeeded or raised),
the set of ids that are keys of the id-indexed lookup table equals the set of
ids of the items in the ordered item list.  Every prefix of a sequence is
itself a sequence, so this holds after every step. -/
theorem conversation_item_ids_in_sync
    (evs : List (RawEvent × Option (List Int))) (id : String) :
    id ∈ (runEvents clearedConversation evs).item_lookup.map Prod.fst ↔
      id ∈ (runEvents clearedConversation evs).items := by
  have h := storeWF_runEvents clearedConversation evs storeWF_cleared
  rw [← dictGet_isSome_iff_mem_keys]
  exact h.2.2 id

/-- C2: `process_event` raises when the event lacks `event_id`, lacks `type`,
or names a type with no registered processor, and in each of these failure
cases the conversation state is returned entirely unchanged. -/
theorem process_event_malformed_rejected
    (s : RealtimeConversation) (ev : RawEvent) (buf : Option (List Int))
    (h : ev.event_id = none ∨ ev.type = none ∨
      ∃ t, ev.type = some t ∧ t ∉ eventProcessorKeys) :
    (∃ msg, (process_event s ev buf).2 = Except.error msg) ∧
      (process_event s ev buf).1 = s := by
  unfold process_event
  cases hid : ev.event_id with
  | none => exact ⟨⟨_, rfl⟩, rfl⟩
  | some eid =>
      cases hty : ev.type with
      | none => exact ⟨⟨_, rfl⟩, rfl⟩
      | some t =>
          have hnk : t ∉ eventProcessorKeys := by
            rcases h with h | h | ⟨t2, ht2, hnk⟩
            · rw [hid] at h; exact absurd h (by simp)
            · rw [hty] at h; exact absurd h (by simp)
            · rw [hty] at ht2
              cases ht2
              exact hnk
          dsimp only
          rw [if_neg hnk]
          exact ⟨⟨_, rfl⟩, rfl⟩

/-- Witness for C2 at a concrete input: an event with no `event_id`. -/
theorem process_event_malformed_rejected_witness :
    (∃ msg, (process_event clearedConversation
        ⟨none, some "conversation.item.deleted",
          EventFields.itemDeleted "it_1"⟩ none).2 = Except.error msg) ∧
      (process_event clearedConversation
        ⟨none, some "conversation.item.deleted",
          EventFields.itemDeleted "it_1"⟩ none).1 = clearedConversation :=
  process_event_malformed_rejected clearedConversation
    ⟨none, some "conversation.item.deleted", EventFields.itemDeleted "it_1"⟩
    none (Or.inl rfl)

/-- A well-typed event whose type string is registered dispatches to its
processor. -/
theorem process_event_known (s : RealtimeConversation) (eid : String)
    (f : EventFields) (buf : Option (List Int))
    (hk : eventTypeOf f ∈ eventProcessorKeys) :
    process_event s ⟨some eid, some (eventTypeOf f), f⟩ buf =
      runProcessor s f buf := by
  unfold process_event
  dsimp only
  rw [if_pos hk, if_pos rfl]

/-- C10: a `speech_stopped` event whose id has no queued span does not raise:
it stores a span whose `audio_start_ms` equals the event's `audio_end_ms`, the
slice it takes from the provided input buffer is empty, and it returns
`(None, None)`. -/
theorem speech_stopped_without_started
    (s : RealtimeConversation) (eid item_id : String) (e : Nat) (buf : List Int)
    (h : dictGet s.queued_speech_items item_id = none) :
    process_event s ⟨some eid, some "input_audio_buffer.speech_stopped",
        EventFields.speechStopped item_id e⟩ (some buf) =
      ({ s with queued_speech_items := dictSet s.queued_speech_items item_id (SpeechSpan.mk e (some e) (some [])) },
       Except.ok (none, none)) := by
  rw [show ("input_audio_buffer.speech_stopped" : String) =
      eventTypeOf (EventFields.speechStopped item_id e) from rfl]
  rw [process_event_known s eid _ (some buf)
    (by simp [eventTypeOf, eventProcessorKeys])]
  show _process_speech_stopped s item_id e (some buf) = _
  unfold _process_speech_stopped
  rw [h]
  simp [Nat.sub_self]

/-- Witness for C10 at a concrete input. -/
theorem speech_stopped_without_started_witness :
    process_event clearedConversation
        ⟨some "evt_1", some "input_audio_buffer.speech_stopped",
          EventFields.speechStopped "it_9" 500⟩ (some [0, 1, 2]) =
      ({ clearedConversation with queued_speech_items := dictSet clearedConversation.queued_speech_items "it_9" (SpeechSpan.mk 500 (some 500) (some [])) },
       Except.ok (none, none)) :=
  speech_stopped_without_started clearedConversation "evt_1" "it_9" 500
    [0, 1, 2] rfl

/-- C3: `item.truncated` on an existing item truncates `formatted.audio` to
the sample index `audio_end_ms * 24000 / 1000` (floor) and clears
`formatted.transcript`; truncating again with a bound whose cutoff is at least
the current audio length leaves the conversation state unchanged. -/
theorem item_truncated_cutoff_and_idempotent
    (s : RealtimeConversation) (item_id : String) (item : Item) (T T2 : Nat)
    (h : dictGet s.item_lookup item_id = some item)
    (h2 : (item.formatted.audio.take (T * default_frequency / 1000)).length ≤
      T2 * default_frequency / 1000) :
    ∃ item1,
      _process_item_truncated s item_id T =
        ({ s with item_lookup := dictSetKey s.item_lookup item_id item1 },
         Except.ok (some item1, none)) ∧
      item1.formatted.audio =
        item.formatted.audio.take (T * default_frequency / 1000) ∧
      item1.formatted.transcript = "" ∧
      (_process_item_truncated (_process_item_truncated s item_id T).1 item_id
          T2).1 = (_process_item_truncated s item_id T).1 := by
  have hsome : (dictGet s.item_lookup item_id).isSome := by simp [h]
  refine ⟨{ item with formatted.transcript := "", formatted.audio := item.formatted.audio.take (T * default_frequency / 1000) },
    ?_, rfl, rfl, ?_⟩
  · unfold _process_item_truncated
    rw [h]
  · unfold _process_item_truncated
    rw [h]
    dsimp only
    rw [dictGet_dictSetKey_self s.item_lookup item_id _ hsome]
    dsimp only
    rw [List.take_of_length_le h2]
    rw [dictSetKey_self_eq _ _ _
      (dictGet_dictSetKey_self s.item_lookup item_id _ hsome)]

/-- Witness for C3 at a concrete input: a 30-sample buffer truncated twice at
1 ms (cutoff 24). -/
theorem item_truncated_cutoff_and_idempotent_witness :
    ∃ item1,
      _process_item_truncated sampleConversation "it_1" 1 =
        ({ sampleConversation with item_lookup := dictSetKey sampleConversation.item_lookup "it_1" item1 },
         Except.ok (some item1, none)) ∧
      item1.formatted.audio =
        sampleAssistantItem.formatted.audio.take (1 * default_frequency / 1000) ∧
      item1.formatted.transcript = "" ∧
      (_process_item_truncated
          (_process_item_truncated sampleConversation "it_1" 1).1 "it_1" 1).1 =
        (_process_item_truncated sampleConversation "it_1" 1).1 :=
  item_truncated_cutoff_and_idempotent sampleConversation "it_1"
    sampleAssistantItem 1 1 rfl (by decide)

theorem storeIfFresh_queues (s : RealtimeConversation) (fresh : Bool)
    (ni : Item) :
    (storeIfFresh s fresh ni).queued_transcript_items =
      s.queued_transcript_items := by
  cases fresh <;> rfl

theorem itemCreatedFinish_transcript (s : RealtimeConversation) (fresh : Bool)
    (ni : Item) (t : String)
    (hq : dictGet s.queued_transcript_items ni.id = some t) :
    ∃ ni2, (itemCreatedFinish s fresh ni).2 = Except.ok (some ni2, none) ∧
      ni2.formatted.transcript = t ∧
      dictGet (itemCreatedFinish s fresh ni).1.queued_transcript_items ni.id =
        none := by
  unfold itemCreatedFinish
  dsimp only
  rw [hq]
  dsimp only
  (repeat' split) <;>
    · refine ⟨_, rfl, rfl, ?_⟩
      rw [storeIfFresh_queues]
      exact dictGet_dictDel_self _ _

/-- C4: a `transcription.completed` event for an id with no stored item
returns `(None, None)` and buffers the transcript (an empty transcript is
replaced by a single space) keyed by that id; a subsequent `item.created` for
the same id returns an item whose `formatted.transcript` equals the buffered
transcript, and deletes the queued entry. -/
theorem queued_transcript_flow
    (s : RealtimeConversation) (ci : Nat) (transcript : String) (item : Item)
    (h : dictGet s.item_lookup item.id = none)
    (hsp : ∀ sp, dictGet s.queued_speech_items item.id = some sp →
      sp.audio.isSome) :
    (_process_audio_transcription_completed s item.id ci transcript).2 =
      Except.ok (none, none) ∧
    dictGet (_process_audio_transcription_completed s item.id ci
        transcript).1.queued_transcript_items item.id =
      some (if transcript = "" then " " else transcript) ∧
    ∃ ni,
      (_process_item_created
          (_process_audio_transcription_completed s item.id ci transcript).1
          item).2 = Except.ok (some ni, none) ∧
      ni.formatted.transcript = (if transcript = "" then " " else transcript) ∧
      dictGet (_process_item_created
          (_process_audio_transcription_completed s item.id ci transcript).1
          item).1.queued_transcript_items item.id = none := by
  have e1 : _process_audio_transcription_completed s item.id ci transcript =
      ({ s with queued_transcript_items := dictSet s.queued_transcript_items item.id (if transcript = "" then " " else transcript) },
       Except.ok (none, none)) := by
    unfold _process_audio_transcription_completed
    rw [h]
  rw [e1]
  dsimp only
  refine ⟨rfl, dictGet_dictSet_self _ _ _, ?_⟩
  unfold _process_item_created
  dsimp only
  cases hq : dictGet s.queued_speech_items item.id with
  | none =>
      dsimp only
      exact itemCreatedFinish_transcript _ _ _ _
        (dictGet_dictSet_self _ _ _)
  | some sp =>
      have hau := hsp sp hq
      dsimp only
      cases ha : sp.audio with
      | none => rw [ha] at hau; simp at hau
      | some au =>
          dsimp only
          exact itemCreatedFinish_transcript _ _ _ _
            (dictGet_dictSet_self _ _ _)

/-- Witness for C4 at a concrete input: an empty transcript for `"u_1"`
buffered as a single space, then claimed by the matching `item.created`. -/
theorem queued_transcript_flow_witness :
    (_process_audio_transcription_completed clearedConversation
        sampleUserItem.id 0 "").2 = Except.ok (none, none) ∧
    dictGet (_process_audio_transcription_completed clearedConversation
        sampleUserItem.id 0 "").1.queued_transcript_items sampleUserItem.id =
      some (if "" = "" then " " else "") ∧
    ∃ ni,
      (_process_item_created
          (_process_audio_transcription_completed clearedConversation
            sampleUserItem.id 0 "").1 sampleUserItem).2 =
        Except.ok (some ni, none) ∧
      ni.formatted.transcript = (if "" = "" then " " else "") ∧
      dictGet (_process_item_created
          (_process_audio_transcription_completed clearedConversation
            sampleUserItem.id 0 "").1
          sampleUserItem).1.queued_transcript_items sampleUserItem.id = none :=
  queued_transcript_flow clearedConversation 0 "" sampleUserItem rfl
    (fun sp hsp => by simp [clearedConversation, dictGet] at hsp)

theorem itemCreatedFinish_formatted (s : RealtimeConversation) (fresh : Bool)
    (ni : Item) :
    ∃ ni2, (itemCreatedFinish s fresh ni).2 = Except.ok (some ni2, none) ∧
      ni2.formatted.text = textContentOf ni.content ∧
      ni2.formatted.transcript =
        (match dictGet s.queued_transcript_items ni.id with
          | some t => t
          | none => ni.formatted.transcript) ∧
      ni2.formatted.audio =
        (if ni.type = "message" ∧ ni.role = "user" then
          match s.queued_input_audio with
          | some qa => qa
          | none => ni.formatted.audio
        else ni.formatted.audio) := by
  unfold itemCreatedFinish
  dsimp only
  cases hqt : dictGet s.queued_transcript_items ni.id <;> dsimp only <;>
    (by_cases hm : ni.type = "message"
     · rw [if_pos hm]
       by_cases hu : ni.role = "user"
       · rw [if_pos hu, if_pos (And.intro hm hu)]
         cases hqa : s.queued_input_audio <;> dsimp only <;>
           exact ⟨_, rfl, rfl, rfl, rfl⟩
       · have hand : ¬ (ni.type = "message" ∧ ni.role = "user") :=
           fun hc => hu hc.2
         rw [if_neg hu, if_neg hand]
         exact ⟨_, rfl, rfl, rfl, rfl⟩
     · have hand : ¬ (ni.type = "message" ∧ ni.role = "user") :=
         fun hc => hm hc.1
       rw [if_neg hm, if_neg hand]
       by_cases hfc : ni.type = "function_call"
       · rw [if_pos hfc]
         exact ⟨_, rfl, rfl, rfl, rfl⟩
       · rw [if_neg hfc]
         by_cases hfo : ni.type = "function_call_output"
         · rw [if_pos hfo]
           exact ⟨_, rfl, rfl, rfl, rfl⟩
         · rw [if_neg hfo]
           exact ⟨_, rfl, rfl, rfl, rfl⟩)

/-- C9: an `item.created` event whose id already sits in the lookup table
leaves both the lookup table and the ordered item list unchanged, yet still
returns an item whose `formatted` projection is recomputed from scratch: text
from the text/input_text content parts, transcript from the queued transcript
(or empty), audio from the queued input audio or queued speech span (or
empty). -/
theorem item_recreated_table_noop
    (s : RealtimeConversation) (item : Item)
    (hex : (dictGet s.item_lookup item.id).isSome)
    (hsp : ∀ sp, dictGet s.queued_speech_items item.id = some sp →
      sp.audio.isSome) :
    (_process_item_created s item).1.item_lookup = s.item_lookup ∧
    (_process_item_created s item).1.items = s.items ∧
    ∃ ni, (_process_item_created s item).2 = Except.ok (some ni, none) ∧
      ni.formatted.text = textContentOf item.content ∧
      ni.formatted.transcript =
        (match dictGet s.queued_transcript_items item.id with
          | some t => t
          | none => "") ∧
      ni.formatted.audio =
        (if item.type = "message" ∧ item.role = "user" then
          match s.queued_input_audio with
          | some qa => qa
          | none =>
            match dictGet s.queued_speech_items item.id with
            | some sp => sp.audio.getD []
            | none => []
        else
          match dictGet s.queued_speech_items item.id with
          | some sp => sp.audio.getD []
          | none => []) := by
  have hb : (! dictContains s.item_lookup item.id) = false := by
    simp [dictContains, hex]
  unfold _process_item_created
  dsimp only
  cases hq : dictGet s.queued_speech_items item.id with
  | none =>
      dsimp only
      obtain ⟨s2, ni2, heq, hl, hi, hid⟩ :=
        itemCreatedFinish_shape s (! dictContains s.item_lookup item.id)
          { item with formatted := initialFormatted }
      obtain ⟨ni3, h2, htext, htr, hau⟩ :=
        itemCreatedFinish_formatted s (! dictContains s.item_lookup item.id)
          { item with formatted := initialFormatted }
      rw [heq] at h2
      have hni : ni2 = ni3 := by simpa using h2
      rw [heq, hb]
      subst hni
      refine ⟨by simpa [storeIfFresh] using hl,
        by simpa [storeIfFresh] using hi, ni2, rfl, htext, htr, hau⟩
  | some sp =>
      have hau2 := hsp sp hq
      dsimp only
      cases ha : sp.audio with
      | none => rw [ha] at hau2; simp at hau2
      | some au =>
          dsimp only
          obtain ⟨s2, ni2, heq, hl, hi, hid⟩ :=
            itemCreatedFinish_shape
              { s with queued_speech_items :=
                  dictDel s.queued_speech_items item.id }
              (! dictContains s.item_lookup item.id)
              { item with formatted := { initialFormatted with audio := au } }
          obtain ⟨ni3, h2, htext, htr, hau⟩ :=
            itemCreatedFinish_formatted
              { s with queued_speech_items :=
                  dictDel s.queued_speech_items item.id }
              (! dictContains s.item_lookup item.id)
              { item with formatted := { initialFormatted with audio := au } }
          rw [heq] at h2
          have hni : ni2 = ni3 := by simpa using h2
          rw [heq, hb]
          subst hni
          refine ⟨by simpa [storeIfFresh] using hl,
            by simpa [storeIfFresh] using hi, ni2, rfl, htext, htr, hau⟩

/-- Witness for C9 at a concrete input: re-creating `"u_1"`, which is already
stored. -/
theorem item_recreated_table_noop_witness :
    (_process_item_created sampleConversationWithUser sampleUserItem).1.item_lookup =
      sampleConversationWithUser.item_lookup ∧
    (_process_item_created sampleConversationWithUser sampleUserItem).1.items =
      sampleConversationWithUser.items ∧
    ∃ ni, (_process_item_created sampleConversationWithUser sampleUserItem).2 =
        Except.ok (some ni, none) ∧
      ni.formatted.text = textContentOf sampleUserItem.content ∧
      ni.formatted.transcript =
        (match dictGet sampleConversationWithUser.queued_transcript_items
            sampleUserItem.id with
          | some t => t
          | none => "") ∧
      ni.formatted.audio =
        (if sampleUserItem.type = "message" ∧ sampleUserItem.role = "user" then
          match sampleConversationWithUser.queued_input_audio with
          | some qa => qa
          | none =>
            match dictGet sampleConversationWithUser.queued_speech_items
                sampleUserItem.id with
            | some sp => sp.audio.getD []
            | none => []
        else
          match dictGet sampleConversationWithUser.queued_speech_items
              sampleUserItem.id with
          | some sp => sp.audio.getD []
          | none => []) :=
  item_recreated_table_noop sampleConversationWithUser sampleUserItem
    (by decide)
    (fun sp hsp => by
      simp [sampleConversationWithUser, clearedConversation, dictGet] at hsp)

/-! ### Event-bus dispatch order (C5) -/

theorem applyRegs_event_get {H : Type} (regs : List (RegOp H))
    (b : RealtimeEventHandler H) (t : String) :
    (dictGet (applyRegs b regs).event_handlers t).getD [] =
      (dictGet b.event_handlers t).getD [] ++ onRegsFor t regs := by
  induction regs generalizing b with
  | nil => simp [applyRegs, onRegsFor]
  | cons op rest ih =>
      cases op with
      | onEvent t1 h1 =>
          rw [show applyRegs b (RegOp.onEvent t1 h1 :: rest) =
              applyRegs (on_event b t1 h1) rest from rfl, ih]
          by_cases ht : t1 = t
          · subst ht
            rw [show (on_event b t1 h1).event_handlers = dictSet b.event_handlers t1 ((dictGet b.event_handlers t1).getD [] ++ [h1]) from rfl]
            rw [dictGet_dictSet_self]
            simp [onRegsFor, List.filterMap_cons]
          · rw [show (on_event b t1 h1).event_handlers = dictSet b.event_handlers t1 ((dictGet b.event_handlers t1).getD [] ++ [h1]) from rfl]
            rw [dictGet_dictSet_ne _ _ _ _ (Ne.symm ht)]
            simp [onRegsFor, List.filterMap_cons, ht]
      | onNext t1 h1 =>
          rw [show applyRegs b (RegOp.onNext t1 h1 :: rest) =
              applyRegs (on_next b t1 h1) rest from rfl, ih]
          simp [onRegsFor, List.filterMap_cons, on_next]

theorem applyRegs_next_get {H : Type} (regs : List (RegOp H))
    (b : RealtimeEventHandler H) (t : String) :
    (dictGet (applyRegs b regs).next_event_handlers t).getD [] =
      (dictGet b.next_event_handlers t).getD [] ++ onNextRegsFor t regs := by
  induction regs generalizing b with
  | nil => simp [applyRegs, onNextRegsFor]
  | cons op rest ih =>
      cases op with
      | onEvent t1 h1 =>
          rw [show applyRegs b (RegOp.onEvent t1 h1 :: rest) =
              applyRegs (on_event b t1 h1) rest from rfl, ih]
          simp [onNextRegsFor, List.filterMap_cons, on_event]
      | onNext t1 h1 =>
          rw [show applyRegs b (RegOp.onNext t1 h1 :: rest) =
              applyRegs (on_next b t1 h1) rest from rfl, ih]
          by_cases ht : t1 = t
          · subst ht
            rw [show (on_next b t1 h1).next_event_handlers = dictSet b.next_event_handlers t1 ((dictGet b.next_event_handlers t1).getD [] ++ [h1]) from rfl]
            rw [dictGet_dictSet_self]
            simp [onNextRegsFor, List.filterMap_cons]
          · rw [show (on_next b t1 h1).next_event_handlers = dictSet b.next_event_handlers t1 ((dictGet b.next_event_handlers t1).getD [] ++ [h1]) from rfl]
            rw [dictGet_dictSet_ne _ _ _ _ (Ne.symm ht)]
            simp [onNextRegsFor, List.filterMap_cons, ht]

/-- C5: for any sequence of `on`/`on_next` registrations on a fresh bus,
`dispatch` on a topic invokes exactly the permanent handlers registered for
that topic in registration order, then the one-shot handlers for that topic in
registration order; it then clears the one-shot list for that topic while
leaving the permanent table and every other topic's one-shot list unchanged. -/
theorem dispatch_order_and_oneshot_removal {H : Type}
    (regs : List (RegOp H)) (t t2 : String) (hne : t2 ≠ t) :
    (dispatch (applyRegs (emptyHandler H) regs) t).1 =
      onRegsFor t regs ++ onNextRegsFor t regs ∧
    (dispatch (applyRegs (emptyHandler H) regs) t).2.event_handlers =
      (applyRegs (emptyHandler H) regs).event_handlers ∧
    dictGet (dispatch (applyRegs (emptyHandler H) regs)
        t).2.next_event_handlers t = none ∧
    dictGet (dispatch (applyRegs (emptyHandler H) regs)
        t).2.next_event_handlers t2 =
      dictGet (applyRegs (emptyHandler H) regs).next_event_handlers t2 := by
  refine ⟨?_, rfl, dictGet_dictDel_self _ _, dictGet_dictDel_ne _ _ _ hne⟩
  show (dictGet (applyRegs (emptyHandler H) regs).event_handlers t).getD [] ++
      (dictGet (applyRegs (emptyHandler H) regs).next_event_handlers t).getD [] = _
  rw [applyRegs_event_get, applyRegs_next_get]
  simp [emptyHandler, dictGet]

/-- Witness for C5 at a concrete input: five interleaved registrations on two
topics, dispatched on `"a"`. -/
theorem dispatch_order_and_oneshot_removal_witness :
    (dispatch (applyRegs (emptyHandler Nat)
        [RegOp.onEvent "a" 1, RegOp.onNext "a" 2, RegOp.onEvent "b" 3,
         RegOp.onNext "b" 4, RegOp.onEvent "a" 5]) "a").1 =
      onRegsFor "a" [RegOp.onEvent "a" 1, RegOp.onNext "a" 2,
        RegOp.onEvent "b" 3, RegOp.onNext "b" 4, RegOp.onEvent "a" 5] ++
      onNextRegsFor "a" [RegOp.onEvent "a" 1, RegOp.onNext "a" 2,
        RegOp.onEvent "b" 3, RegOp.onNext "b" 4, RegOp.onEvent "a" 5] ∧
    (dispatch (applyRegs (emptyHandler Nat)
        [RegOp.onEvent "a" 1, RegOp.onNext "a" 2, RegOp.onEvent "b" 3,
         RegOp.onNext "b" 4, RegOp.onEvent "a" 5]) "a").2.event_handlers =
      (applyRegs (emptyHandler Nat)
        [RegOp.onEvent "a" 1, RegOp.onNext "a" 2, RegOp.onEvent "b" 3,
         RegOp.onNext "b" 4, RegOp.onEvent "a" 5]).event_handlers ∧
    dictGet (dispatch (applyRegs (emptyHandler Nat)
        [RegOp.onEvent "a" 1, RegOp.onNext "a" 2, RegOp.onEvent "b" 3,
         RegOp.onNext "b" 4, RegOp.onEvent "a" 5]) "a").2.next_event_handlers
      "a" = none ∧
    dictGet (dispatch (applyRegs (emptyHandler Nat)
        [RegOp.onEvent "a" 1, RegOp.onNext "a" 2, RegOp.onEvent "b" 3,
         RegOp.onNext "b" 4, RegOp.onEvent "a" 5]) "a").2.next_event_handlers
      "b" =
      dictGet (applyRegs (emptyHandler Nat)
        [RegOp.onEvent "a" 1, RegOp.onNext "a" 2, RegOp.onEvent "b" 3,
         RegOp.onNext "b" 4, RegOp.onEvent "a" 5]).next_event_handlers "b" :=
  dispatch_order_and_oneshot_removal
    [RegOp.onEvent "a" 1, RegOp.onNext "a" 2, RegOp.onEvent "b" 3,
     RegOp.onNext "b" 4, RegOp.onEvent "a" 5] "a" "b" (by decide)

/-- C6: `cancel_response` with the id of a stored item that is not an
assistant message (wrong type, or wrong role such as `user`) raises and sends
neither a cancel nor a truncate event. -/
theorem cancel_response_role_mismatch_no_send
    (conv : RealtimeConversation) (iid : String) (item : Item) (sc : Nat)
    (h : dictGet conv.item_lookup iid = some item)
    (hbad : item.type ≠ "message" ∨ item.role ≠ "assistant") :
    ∃ msg, cancel_response conv (some iid) sc = ([], Except.error msg) := by
  unfold cancel_response
  dsimp only
  rw [h]
  dsimp only
  by_cases ht : item.type = "message"
  · have hrole : item.role ≠ "assistant" := by
      rcases hbad with hb | hb
      · exact absurd ht hb
      · exact hb
    rw [if_neg (fun hc => hc ht), if_pos hrole]
    exact ⟨_, rfl⟩
  · rw [if_pos ht]
    exact ⟨_, rfl⟩

/-- Witness for C6 at a concrete input: cancelling against the stored
`role = "user"` message `"u_1"`. -/
theorem cancel_response_role_mismatch_no_send_witness :
    ∃ msg, cancel_response sampleConversationWithUser (some "u_1") 0 =
      ([], Except.error msg) :=
  cancel_response_role_mismatch_no_send sampleConversationWithUser "u_1"
    sampleUserItem 0 (by decide) (Or.inr (by decide))

/-- C7 (code bug): `add_tool` on a fresh, well-formed tool registers it and
then raises the `TypeError` produced by calling the keyword-only
`update_session` with a positional dict, so the full tool list is never
pushed into the session config and nothing is sent; `remove_tool` on an
existing tool deletes it and returns `True` without calling `update_session`
at all.  The duplicate-add and missing-remove failures do hold. -/
theorem add_remove_tool_never_republish :
    add_tool clientNoTools sampleToolDefinition sampleToolHandler =
      (clientWithTool, [],
       Except.error "TypeError: update_session() takes 1 positional argument but 2 were given") ∧
    remove_tool clientWithTool "get_weather" =
      (clientNoTools, [], Except.ok true) ∧
    (∃ msg, add_tool clientWithTool sampleToolDefinition sampleToolHandler =
      (clientWithTool, [], Except.error msg)) ∧
    (∃ msg, remove_tool clientNoTools "get_weather" =
      (clientNoTools, [], Except.error msg)) :=
  ⟨rfl, rfl, ⟨_, rfl⟩, ⟨_, rfl⟩⟩

/-- C8 counterexample: `off` on a topic with no registered handler list at all
returns `True` silently instead of failing with a not-found error. -/
theorem off_absent_topic_silent_success :
    off (emptyHandler Nat) "server.connected" (some 7) =
      (emptyHandler Nat, Except.ok true) := rfl

/-- C8 amended: when the topic has a registered handler list and the handler
is not among its entries, `off` fails with a not-found error and leaves the
bus unchanged; a topic with no handler list at all returns `True` silently
(see the counterexample). -/
theorem off_registered_topic_missing_handler_fails {H : Type} [DecidableEq H]
    (b : RealtimeEventHandler H) (t : String) (cb : H) (handlers : List H)
    (h : dictGet b.event_handlers t = some handlers) (hnm : cb ∉ handlers) :
    ∃ msg, off b t (some cb) = (b, Except.error msg) := by
  unfold off
  rw [h]
  dsimp only
  rw [if_neg hnm]
  exact ⟨_, rfl⟩

/-- Witness for the amended C8 at a concrete input: handler `2` was never
registered for `"conversation.updated"`, which holds `[1]`. -/
theorem off_registered_topic_missing_handler_fails_witness :
    ∃ msg, off (RealtimeEventHandler.mk [("conversation.updated", [1])] []
        : RealtimeEventHandler Nat) "conversation.updated" (some 2) =
      (RealtimeEventHandler.mk [("conversation.updated", [1])] [],
       Except.error msg) :=
  off_registered_topic_missing_handler_fails
    (RealtimeEventHandler.mk [("conversation.updated", [1])] [])
    "conversation.updated" 2 [1] rfl (by decide)

end Realtime
